import Mathlib

/-
  Shallow embedding of src/neil_logger/universal_logger.py.

  The effectful Python class UniversalLogger is modelled as explicit state
  passing over a LoggerState.  Mongo inserts are modelled as appends to the
  per-collection document lists; a write that the store rejects is modelled
  by a Bool oracle passed to the operation, and a raised Python exception is
  an Except.error result.  Timestamps (datetime.utcnow()) are abstract Nat
  instants supplied by the caller.  The module-level SENTRY_AVAILABLE flag
  (set by the try/except ImportError around the sentry_sdk import) is a
  field of the state; calling one of the sentry names when the import
  failed raises a Python NameError, modelled as PyError.nameError.
-/

namespace NeilLogger

/-- Python logging level names as used by the logger. -/
inductive Level
  | DEBUG
  | INFO
  | WARNING
  | ERROR
  | CRITICAL
  deriving DecidableEq, Repr

/-- One buffered record dict.  BufferHandler.emit builds records without a
"traceback" key; the capture_errors direct append adds one, hence the
Option.  Fields mirror the dict keys in the source. -/
structure LogRecord where
  timestamp : Nat
  level : Level
  module : String
  function : String
  message : String
  run_id : String
  traceback : Option String := none
  deriving DecidableEq, Repr

/-- The run document inserted into the primary log collection by flush. -/
structure RunBatch where
  run_id : String
  logs : List LogRecord
  timestamp : Nat
  deriving DecidableEq, Repr

/-- Documents inserted into the error collection: the filtered error batch
written by flush, and the uncaught-exception document written by the
global exception hook. -/
inductive ErrorDoc
  | batch (run_id : String) (errors : List LogRecord) (timestamp : Nat)
  | uncaught (timestamp : Nat) (run_id : String) (error_type : String)
      (message : String) (traceback : String) (script : String)
  deriving DecidableEq, Repr

/-- Events sent to sentry via capture_exception / capture_message. -/
inductive TrackerEvent
  | exception (excMessage : String)
  | message (msg : String) (level : String)
  deriving DecidableEq, Repr

/-- Python exceptions that the modelled operations can raise. -/
inductive PyError
  | nameError
  | importError
  | writeFailed
  | user (excType : String) (excMessage : String)
  deriving DecidableEq, Repr

/-- The mutable state of one UniversalLogger instance, together with the
observable side-effect sinks (the two Mongo collections and the sentry
event stream). -/
structure LoggerState where
  name : String
  run_id : String
  sentryAvailable : Bool
  buffer : List LogRecord
  log_collection : List RunBatch
  error_collection : List ErrorDoc
  tracker : List TrackerEvent
  deriving DecidableEq, Repr

/-- BufferHandler.emit: append one record (no "traceback" key) built from
the stdlib LogRecord to self.buffer.  The console StreamHandler write has
no observable effect on the state; the stdlib logging machinery swallows
handler failures, so emission through self.logger never raises. -/
def bufferEmit (st : LoggerState) (now : Nat) (level : Level)
    (funcName msg : String) : LoggerState :=
  { st with buffer := st.buffer ++
      [{ timestamp := now, level := level, module := st.name,
         function := funcName, message := msg, run_id := st.run_id,
         traceback := none }] }

/-- UniversalLogger.debug: delegate to the stdlib logger. -/
def debug (st : LoggerState) (now : Nat) (funcName msg : String) : LoggerState :=
  bufferEmit st now Level.DEBUG funcName msg

/-- UniversalLogger.info: delegate to the stdlib logger. -/
def info (st : LoggerState) (now : Nat) (funcName msg : String) : LoggerState :=
  bufferEmit st now Level.INFO funcName msg

/-- UniversalLogger.warning: delegate to the stdlib logger. -/
def warning (st : LoggerState) (now : Nat) (funcName msg : String) : LoggerState :=
  bufferEmit st now Level.WARNING funcName msg

/-- UniversalLogger.critical: delegate to the stdlib logger. -/
def critical (st : LoggerState) (now : Nat) (funcName msg : String) : LoggerState :=
  bufferEmit st now Level.CRITICAL funcName msg

/-- UniversalLogger.error: self.logger.error(msg), then capture_exception(exc)
if an exception object was supplied, else capture_message(msg, "error").
When the sentry import failed those module-level names do not exist, so the
call raises NameError after the console write and buffer append already
happened.  The optional exc argument is the (type, message) pair of the
underlying exception object. -/
def errorOp (st : LoggerState) (now : Nat) (funcName msg : String)
    (exc : Option (String × String)) : LoggerState × Except PyError Unit :=
  let st1 := bufferEmit st now Level.ERROR funcName msg
  match exc with
  | some e =>
      if st1.sentryAvailable then
        ({ st1 with tracker := st1.tracker ++ [TrackerEvent.exception e.2] },
         Except.ok ())
      else (st1, Except.error PyError.nameError)
  | none =>
      if st1.sentryAvailable then
        ({ st1 with tracker := st1.tracker ++ [TrackerEvent.message msg "error"] },
         Except.ok ())
      else (st1, Except.error PyError.nameError)

/-- The membership test r["level"] in {"ERROR", "CRITICAL"} used by flush. -/
def isErrorLevel (r : LogRecord) : Bool :=
  r.level == Level.ERROR || r.level == Level.CRITICAL

/-- UniversalLogger.flush.  If the buffer is empty, return at once.
Otherwise copy and clear the buffer, insert the run document into the log
collection, then filter the errors and, if any, insert the error batch into
the error collection.  There is no try/except: a failed insert (oracle
false) raises out of flush, after the buffer was already cleared and after
any earlier insert already happened. -/
def flush (st : LoggerState) (now : Nat) (logWriteOk errWriteOk : Bool) :
    LoggerState × Except PyError Unit :=
  if st.buffer.isEmpty then (st, Except.ok ())
  else
    let logs := st.buffer
    let st1 := { st with buffer := [] }
    if logWriteOk then
      let st2 := { st1 with log_collection := st1.log_collection ++
          [{ run_id := st1.run_id, logs := logs, timestamp := now }] }
      let errors := logs.filter isErrorLevel
      if errors.isEmpty then (st2, Except.ok ())
      else if errWriteOk then
        ({ st2 with error_collection := st2.error_collection ++
            [ErrorDoc.batch st2.run_id errors now] }, Except.ok ())
      else (st2, Except.error PyError.writeFailed)
    else (st1, Except.error PyError.writeFailed)

/-- Python str() of a class object, as produced by str(exc_type). -/
def pyStrOfClass (typeName : String) : String :=
  "<class \x27" ++ typeName ++ "\x27>"

/-- The handler installed by enable_global_exception_hook.  KeyboardInterrupt
is passed to sys.__excepthook__ and nothing is written.  Otherwise one
uncaught-error document is inserted directly into the error collection
(the buffer is bypassed), then capture_exception is called — a NameError
when the sentry import failed, after the insert already happened. -/
def handleUncaught (st : LoggerState) (now : Nat)
    (isKeyboardInterrupt : Bool) (excTypeName excMessage tbStr : String) :
    LoggerState × Except PyError Unit :=
  if isKeyboardInterrupt then (st, Except.ok ())
  else
    let st1 := { st with error_collection := st.error_collection ++
        [ErrorDoc.uncaught now st.run_id (pyStrOfClass excTypeName)
          excMessage tbStr st.name] }
    if st1.sentryAvailable then
      ({ st1 with tracker := st1.tracker ++ [TrackerEvent.exception excMessage] },
       Except.ok ())
    else (st1, Except.error PyError.nameError)

/-- One call of a callable wrapped by capture_errors(suppress).  The wrapped
call either returns a value or raises a user exception given as its
(type, message) pair; tb is traceback.format_exc() of that exception.  On
success the result is returned unchanged.  On exception: self.logger.error
logs "[name] message" through the console+buffer path (the stdlib record
funcName is the wrapper function), a second richer record with the
traceback is appended directly to the buffer, capture_exception(e) is
called (NameError when the sentry import failed), and finally the original
exception is re-raised unless suppress, in which case the wrapper falls
through and returns None. -/
def captureErrorsRun {α : Type} (st : LoggerState) (now : Nat)
    (suppress : Bool) (funcName : String)
    (callResult : Except (String × String) α) (tb : String) :
    LoggerState × Except PyError (Option α) :=
  match callResult with
  | Except.ok a => (st, Except.ok (some a))
  | Except.error e =>
      let st1 := bufferEmit st now Level.ERROR "wrapper"
        ("[" ++ funcName ++ "] " ++ e.2)
      let st2 := { st1 with buffer := st1.buffer ++
          [({ timestamp := now, level := Level.ERROR, module := st1.name,
              function := funcName, message := e.2, run_id := st1.run_id,
              traceback := some tb } : LogRecord)] }
      if st2.sentryAvailable then
        let st3 := { st2 with tracker := st2.tracker ++ [TrackerEvent.exception e.2] }
        if suppress then (st3, Except.ok none)
        else (st3, Except.error (PyError.user e.1 e.2))
      else (st2, Except.error PyError.nameError)

/-- The sentry branch of UniversalLogger.__init__: when a sentry_dsn is
supplied and the sentry import failed, the constructor raises ImportError;
with no dsn the branch is skipped. -/
def initSentryCheck (sentryDsn : Option String) (sentryAvailable : Bool) :
    Except PyError Unit :=
  match sentryDsn with
  | none => Except.ok ()
  | some _ =>
      if sentryAvailable then Except.ok () else Except.error PyError.importError

/-- A logger state fresh out of the constructor, sentry import available. -/
def baseState : LoggerState :=
  { name := "m", run_id := "r", sentryAvailable := true, buffer := [],
    log_collection := [], error_collection := [], tracker := [] }

/-- The fresh state in an environment where the sentry import failed. -/
def stNoSentry : LoggerState := { baseState with sentryAvailable := false }

def recInfoA : LogRecord :=
  { timestamp := 1, level := Level.INFO, module := "m", function := "f",
    message := "a", run_id := "r" }

def recErrB : LogRecord :=
  { timestamp := 2, level := Level.ERROR, module := "m", function := "f",
    message := "b", run_id := "r" }

def recInfoC : LogRecord :=
  { timestamp := 3, level := Level.INFO, module := "m", function := "f",
    message := "c", run_id := "r" }

def recCritD : LogRecord :=
  { timestamp := 4, level := Level.CRITICAL, module := "m", function := "f",
    message := "d", run_id := "r" }

/-- A state whose buffer holds levels INFO, ERROR, INFO, CRITICAL. -/
def stFour : LoggerState :=
  { baseState with buffer := [recInfoA, recErrB, recInfoC, recCritD] }

/-- A state whose buffer holds a single ERROR record. -/
def stOneError : LoggerState := { baseState with buffer := [recErrB] }

/-- Helper: whatever the oracles say, the buffer component of the state
returned by flush is empty (empty buffer: flush is the identity; non-empty
buffer: it is cleared before any insert is attempted). -/
theorem flush_fst_buffer_eq_nil (st : LoggerState) (now : Nat)
    (lw ew : Bool) : (flush st now lw ew).1.buffer = [] := by
  unfold flush
  by_cases hbe : st.buffer.isEmpty
  · simpa [hbe] using List.isEmpty_iff.mp hbe
  · simp only [hbe, Bool.false_eq_true, if_false]
    split
    · split
      · rfl
      · split <;> rfl
    · rfl

/-- Claim C7: after flush on a non-empty buffer the buffer is empty, whether
the two store writes succeed or fail; the drain precedes any write and the
drained records are never re-inserted. -/
theorem flush_clears_buffer_always (st : LoggerState) (now : Nat)
    (logWriteOk errWriteOk : Bool) (h : st.buffer ≠ []) :
    (flush st now logWriteOk errWriteOk).1.buffer = [] :=
  flush_fst_buffer_eq_nil st now logWriteOk errWriteOk

/-- Witness for claim C7 at a concrete one-record buffer with both writes
failing. -/
theorem flush_clears_buffer_always_example :
    (flush stOneError 5 false false).1.buffer = [] :=
  flush_clears_buffer_always stOneError 5 false false (by decide)

/-- Claim C9: flush on an empty buffer is a no-op returning the state
unchanged with no write performed, and any flush immediately following a
flush is such a no-op, since flush always leaves the buffer empty. -/
theorem flush_empty_noop_idempotent :
    (∀ (st : LoggerState) (now : Nat) (lw ew : Bool),
      st.buffer = [] → flush st now lw ew = (st, Except.ok ())) ∧
    (∀ (st : LoggerState) (now : Nat) (lw ew : Bool) (now2 : Nat) (lw2 ew2 : Bool),
      flush (flush st now lw ew).1 now2 lw2 ew2 =
        ((flush st now lw ew).1, Except.ok ())) := by
  have base : ∀ (st : LoggerState) (now : Nat) (lw ew : Bool),
      st.buffer = [] → flush st now lw ew = (st, Except.ok ()) := by
    intro st now lw ew h
    simp [flush, h]
  exact ⟨base, fun st now lw ew now2 lw2 ew2 =>
    base _ now2 lw2 ew2 (flush_fst_buffer_eq_nil st now lw ew)⟩

/-- Witness for claim C9: flush of the fresh empty-buffer state is the
identity with an ok result. -/
theorem flush_empty_noop_idempotent_example :
    flush baseState 0 true true = (baseState, Except.ok ()) :=
  flush_empty_noop_idempotent.1 baseState 0 true true rfl

/-- Claim C1: flushing a buffer whose records have levels INFO, ERROR, INFO,
CRITICAL (with both writes succeeding) appends exactly one run batch
holding all four records in buffer order and exactly one error batch
holding exactly the ERROR and CRITICAL records in their relative order;
and, in general, flush writes an error batch exactly when the filtered
ERROR/CRITICAL set of the drained records is non-empty. -/
theorem flush_fourLevel_batches (st : LoggerState) (now : Nat)
    (h : st.buffer.map LogRecord.level =
      [Level.INFO, Level.ERROR, Level.INFO, Level.CRITICAL]) :
    (∃ r0 r1 r2 r3, st.buffer = [r0, r1, r2, r3] ∧
      (flush st now true true).1.log_collection =
        st.log_collection ++
          [{ run_id := st.run_id, logs := [r0, r1, r2, r3], timestamp := now }] ∧
      (flush st now true true).1.error_collection =
        st.error_collection ++ [ErrorDoc.batch st.run_id [r1, r3] now]) ∧
    (∀ (st2 : LoggerState) (now2 : Nat),
      (flush st2 now2 true true).1.error_collection ≠ st2.error_collection ↔
        st2.buffer.filter isErrorLevel ≠ []) := by
  constructor
  · rcases hbuf : st.buffer with _ | ⟨r0, _ | ⟨r1, _ | ⟨r2, _ | ⟨r3, _ | ⟨r4, t⟩⟩⟩⟩⟩ <;>
      simp [hbuf] at h
    obtain ⟨h0, h1, h2, h3⟩ := h
    refine ⟨r0, r1, r2, r3, rfl, ?_, ?_⟩ <;>
      simp [flush, hbuf, isErrorLevel, h0, h1, h2, h3]
  · intro st2 now2
    by_cases hbe : st2.buffer.isEmpty
    · have hb : st2.buffer = [] := List.isEmpty_iff.mp hbe
      simp [flush, hbe, hb]
    · by_cases hfe : (st2.buffer.filter isErrorLevel).isEmpty
      · simp [flush, hbe, hfe, List.isEmpty_iff.mp hfe]
      · have hne : st2.buffer.filter isErrorLevel ≠ [] := by
          simpa [List.isEmpty_iff] using hfe
        simp [flush, hbe, hfe, hne]

/-- Witness for claim C1 at the concrete four-record buffer. -/
theorem flush_fourLevel_batches_example :
    (∃ r0 r1 r2 r3, stFour.buffer = [r0, r1, r2, r3] ∧
      (flush stFour 9 true true).1.log_collection =
        stFour.log_collection ++
          [{ run_id := stFour.run_id, logs := [r0, r1, r2, r3], timestamp := 9 }] ∧
      (flush stFour 9 true true).1.error_collection =
        stFour.error_collection ++ [ErrorDoc.batch stFour.run_id [r1, r3] 9]) ∧
    (∀ (st2 : LoggerState) (now2 : Nat),
      (flush st2 now2 true true).1.error_collection ≠ st2.error_collection ↔
        st2.buffer.filter isErrorLevel ≠ []) :=
  flush_fourLevel_batches stFour 9 (by decide)

/-- Claim C2 as stated is false: the run batch holds every drained record,
not only the non-error ones: flushing a buffer holding one ERROR record
yields a run batch whose logs include that ERROR record. -/
theorem runBatch_contains_error_record :
    ¬ (∀ d ∈ (flush stOneError 5 true true).1.log_collection,
        ∀ r ∈ d.logs, isErrorLevel r = false) := by decide

/-- Claim C2 amended: the run batch written by a flush of a non-empty buffer
contains ALL records of that flush cycle, error records included, in
buffer order. -/
theorem flush_runBatch_all_records (st : LoggerState) (now : Nat)
    (errWriteOk : Bool) (h : st.buffer ≠ []) :
    (flush st now true errWriteOk).1.log_collection =
      st.log_collection ++
        [{ run_id := st.run_id, logs := st.buffer, timestamp := now }] := by
  have hbe : st.buffer.isEmpty = false := by
    simpa [List.isEmpty_iff] using h
  simp [flush, hbe]
  split
  · rfl
  · split <;> rfl

/-- Witness for the amended C2 at the concrete one-record buffer. -/
theorem flush_runBatch_all_records_example :
    (flush stOneError 5 true true).1.log_collection =
      stOneError.log_collection ++
        [{ run_id := stOneError.run_id, logs := stOneError.buffer,
           timestamp := 5 }] :=
  flush_runBatch_all_records stOneError 5 true (by decide)

/-- Claim C3: a call of a capture_errors-wrapped callable that raises grows
the buffer by exactly two records: first the console+buffer record from
self.logger.error (no traceback field, message "[name] msg", stdlib record
funcName "wrapper"), then the richer record appended directly: level ERROR,
the callable's name as function, the exception message, and the stack-trace
string. -/
theorem capture_errors_appends_two_records (st : LoggerState) (now : Nat)
    (suppress : Bool) (funcName excType excMessage tb : String) :
    (captureErrorsRun st now suppress funcName
        (Except.error (excType, excMessage) : Except (String × String) Unit)
        tb).1.buffer =
      st.buffer ++
        [{ timestamp := now, level := Level.ERROR, module := st.name,
           function := "wrapper",
           message := "[" ++ funcName ++ "] " ++ excMessage,
           run_id := st.run_id, traceback := none },
         { timestamp := now, level := Level.ERROR, module := st.name,
           function := funcName, message := excMessage, run_id := st.run_id,
           traceback := some tb }] := by
  unfold captureErrorsRun bufferEmit
  by_cases hsa : st.sentryAvailable <;> cases suppress <;> simp [hsa]

/-- Claim C4 is broken by the code when the sentry import failed: the
unguarded capture_exception call raises NameError from inside the except
block, so a NameError — not the same exception — propagates to the
wrapper's caller, even though both buffer appends already happened. -/
theorem capture_errors_missing_sentry_breaks_reraise :
    ((captureErrorsRun stNoSentry 3 false "f"
        (Except.error ("ValueError", "boom") : Except (String × String) Unit)
        "tb").2 = Except.error PyError.nameError) ∧
    PyError.nameError ≠ PyError.user "ValueError" "boom" ∧
    (captureErrorsRun stNoSentry 3 false "f"
        (Except.error ("ValueError", "boom") : Except (String × String) Unit)
        "tb").1.buffer.length = stNoSentry.buffer.length + 2 :=
  ⟨rfl, by decide, rfl⟩

/-- Claim C5 is broken by the code when the sentry import failed: error()
calls the undefined name capture_message and raises NameError to its
caller, although the console write and the buffer append already happened;
absence of the tracker does not merely skip the external report. -/
theorem error_missing_sentry_raises :
    ((errorOp stNoSentry 4 "caller" "msg" none).2 =
      Except.error PyError.nameError) ∧
    (errorOp stNoSentry 4 "caller" "msg" none).1.buffer =
      stNoSentry.buffer ++
        [{ timestamp := 4, level := Level.ERROR, module := "m",
           function := "caller", message := "msg", run_id := "r",
           traceback := none }] :=
  ⟨rfl, rfl⟩

/-- Claim C6: with the hook installed, a non-interrupt uncaught exception
writes exactly one uncaught-error document directly to the error collection
(buffer and log collection untouched) carrying str(exc_type) — a string
containing the type name — plus the message and the traceback; a
KeyboardInterrupt is delegated to the default hook and writes nothing. -/
theorem global_hook_uncaught_document (st : LoggerState) (now : Nat)
    (excTypeName excMessage tbStr : String) :
    ((handleUncaught st now false excTypeName excMessage tbStr).1.error_collection =
        st.error_collection ++
          [ErrorDoc.uncaught now st.run_id (pyStrOfClass excTypeName)
            excMessage tbStr st.name]) ∧
    (handleUncaught st now false excTypeName excMessage tbStr).1.buffer =
      st.buffer ∧
    (handleUncaught st now false excTypeName excMessage tbStr).1.log_collection =
      st.log_collection ∧
    (∃ pre post, pyStrOfClass excTypeName = pre ++ excTypeName ++ post) ∧
    (handleUncaught st now true excTypeName excMessage tbStr).1 = st := by
  refine ⟨?_, ?_, ?_, ⟨"<class \x27", "\x27>", rfl⟩, rfl⟩ <;>
    · unfold handleUncaught
      by_cases hsa : st.sentryAvailable <;> simp [hsa]

/-- Claim C8 as stated is false: flush has no exception handling, so a
failed primary-collection write raises out of flush to its caller; nothing
is routed through the emitter (no tracker event, no buffered record). -/
theorem flush_write_failure_raises :
    (flush stOneError 6 false true).2 = Except.error PyError.writeFailed ∧
    (flush stOneError 6 false true).1.tracker = stOneError.tracker ∧
    (flush stOneError 6 false true).1.buffer = [] :=
  ⟨rfl, rfl, rfl⟩

/-- Claim C8 amended: a failed store write in flush propagates to flush's
caller (including the atexit-registered automatic call) as an exception;
the failure is not surfaced through the emitter (the tracker and the
buffer gain nothing) and the drained records are not re-buffered. -/
theorem flush_write_failure_propagates (st : LoggerState) (now : Nat)
    (errWriteOk : Bool) (h : st.buffer ≠ []) :
    ((flush st now false errWriteOk).2 = Except.error PyError.writeFailed ∧
      (flush st now false errWriteOk).1.buffer = [] ∧
      (flush st now false errWriteOk).1.tracker = st.tracker) ∧
    (st.buffer.filter isErrorLevel ≠ [] →
      (flush st now true false).2 = Except.error PyError.writeFailed ∧
        (flush st now true false).1.tracker = st.tracker) := by
  have hbe : st.buffer.isEmpty = false := by simpa [List.isEmpty_iff] using h
  constructor
  · refine ⟨?_, flush_fst_buffer_eq_nil st now false errWriteOk, ?_⟩ <;>
      simp [flush, hbe]
  · intro hf
    have hfe : (st.buffer.filter isErrorLevel).isEmpty = false := by
      simpa [List.isEmpty_iff] using hf
    constructor <;> simp [flush, hbe, hfe]

/-- Witness for the amended C8 at the concrete one-error-record buffer. -/
theorem flush_write_failure_propagates_example :
    ((flush stOneError 6 false true).2 = Except.error PyError.writeFailed ∧
      (flush stOneError 6 false true).1.buffer = [] ∧
      (flush stOneError 6 false true).1.tracker = stOneError.tracker) ∧
    (stOneError.buffer.filter isErrorLevel ≠ [] →
      (flush stOneError 6 true false).2 = Except.error PyError.writeFailed ∧
        (flush stOneError 6 true false).1.tracker = stOneError.tracker) :=
  flush_write_failure_propagates stOneError 6 true (by decide)

/-- Claim C10: constructing with a sentry_dsn while the sentry import failed
raises ImportError; with a dsn configured, the sentry branch succeeds
exactly when the sdk is available. -/
theorem init_sentry_dsn_requires_sdk (dsn : String) :
    initSentryCheck (some dsn) false = Except.error PyError.importError ∧
    (∀ avail : Bool, initSentryCheck (some dsn) avail = Except.ok () ↔ avail = true) := by
  refine ⟨rfl, ?_⟩
  intro avail
  cases avail <;> simp [initSentryCheck]

end NeilLogger
